import Mathlib

/-!
Shallow embedding of src/src/handler.c of the howm window manager: the event
dispatcher and its seven per-event handlers.  Pure window-manager state
(client registry, focused monitor data, focused client, current workspace) is
threaded explicitly; protocol-level side effects (xcb calls, logging) are
recorded in an effect trace.  Collaborators that live in other files of the
repository (client.c, workspace.c, ...) are modelled from the spec and marked
as such in their doc comments.
-/

/-- Geometry rectangle of a client or monitor, as in types.h: positions are
signed, dimensions unsigned. -/
structure Rect where
  x : Int
  y : Int
  width : Nat
  height : Nat
deriving DecidableEq

/-- Client record: one managed window (client_t).  stateProps models the set
of EWMH state atoms currently applied to the client. -/
structure Client where
  win : Nat
  is_floating : Bool
  is_transient : Bool
  rect : Rect
  stateProps : List Nat
deriving DecidableEq

/-- Global configuration (conf), the fields read by handler.c. -/
structure Config where
  focus_mouse : Bool
  focus_mouse_click : Bool
  float_spawn_width : Nat
  float_spawn_height : Nat
  center_floating : Bool
  bar_bottom : Bool
  border_px : Nat
deriving DecidableEq

/-- Workspace data read by handler.c: the bar height and the layout mode. -/
structure Workspace where
  bar_height : Nat
  layout : Nat
deriving DecidableEq

/-- Layout-mode constant: the single-window zoom layout. -/
def ZOOM : Nat := 0

/-- Monitor data read by handler.c: its rectangle, the active workspace, the
workspace count and the ordered workspace identifiers. -/
structure Monitor where
  rect : Rect
  ws : Workspace
  workspace_cnt : Nat
  workspaces : List Nat
deriving DecidableEq

/-- Screen data read by handler.c: the root window. -/
structure Screen where
  root : Nat
deriving DecidableEq

/-- The window-manager state mutated by the handlers: the client registry of
the active workspace, configuration, focused monitor, screen, the focused
client and the identifier of the current workspace. -/
structure WMState where
  clients : List Client
  conf : Config
  mon : Monitor
  screen : Screen
  focused : Option Nat
  currentWs : Nat
deriving DecidableEq

/-- EWMH atoms compared against in handler.c, plus an escape constructor for
any other atom value. -/
inductive Atom where
  | DOCK
  | TOOLBAR
  | NOTIFICATION
  | DROPDOWN_MENU
  | SPLASH
  | POPUP_MENU
  | TOOLTIP
  | DIALOG
  | NET_WM_STATE
  | NET_CLOSE_WINDOW
  | NET_ACTIVE_WINDOW
  | NET_CURRENT_DESKTOP
  | other (n : Nat)
deriving DecidableEq

/-- Reply to xcb_get_window_attributes (the field read by map_event). -/
structure AttrReply where
  override_redirect : Bool
deriving DecidableEq

/-- Reply to xcb_get_geometry (the fields read by map_event). -/
structure GeomReply where
  x : Int
  y : Int
  width : Nat
  height : Nat
deriving DecidableEq

/-- The replies the X server returns to the synchronous queries performed
while one map request is handled; none of a reply models a failed query. -/
structure XEnv where
  attrs : Option AttrReply
  wtype : Option (List Atom)
  transientFor : Option Nat
  geom : Option GeomReply
deriving DecidableEq

/-- One delivered xcb_generic_event_t, with the fields of every event view of
the C union flattened alongside the response type, plus the query replies
consumed if the event is handled as a map request. -/
structure GenericEvent where
  responseType : Nat
  window : Nat
  eventWin : Nat
  detail : Nat
  time : Nat
  rootX : Int
  rootY : Int
  valueMask : Nat
  x : Int
  y : Int
  width : Nat
  height : Nat
  borderWidth : Nat
  sibling : Nat
  stackMode : Nat
  msgType : Atom
  data0 : Nat
  data1 : Nat
  data2 : Nat
  env : XEnv
deriving DecidableEq

/-- Protocol-level and logging side effects performed by the handlers, in
order of execution. -/
inductive Effect where
  | logInfo
  | logDebug
  | mapWindow (w : Nat)
  | removeClient (w : Nat) (forced : Bool)
  | arrange
  | focusClient (w : Nat)
  | grabButtons (w : Nat)
  | focusWindow (w : Nat)
  | focusMonitor (x y : Int)
  | allowEvents
  | flush
  | configureWindow (w : Nat) (mask : Nat) (vals : List Int)
  | howmInfo
deriving DecidableEq

/-- Modelled from the spec: find_client_by_win (client.c, not under src/).
Registry lookup by window handle, returning the managed Client if any. -/
def find_client_by_win (s : WMState) (w : Nat) : Option Client :=
  s.clients.find? (fun c => c.win == w)

/-- Modelled from the spec: create_client (client.c, not under src/).
Creates a Client bound to the window handle with default flags (non-floating,
non-transient) and the configured default spawn geometry, to be inserted into
the active workspace. -/
def create_client (conf : Config) (w : Nat) : Client :=
  { win := w
    is_floating := false
    is_transient := false
    rect := { x := 0, y := 0
              width := conf.float_spawn_width
              height := conf.float_spawn_height }
    stateProps := [] }

/-- Modelled from the spec: the registry effect of remove_client (client.c,
not under src/): the Client record is removed from the registry; the forced
flag only selects protocol-level cleanup and is recorded in the effect
trace. -/
def remove_client_registry (cs : List Client) (w : Nat) : List Client :=
  cs.eraseP (fun c => c.win == w)

/-- Modelled from the spec: ewmh_process_wm_state (client.c, not under
src/): applies the requested state toggle (action 0 = remove, 1 = add,
2 = toggle) for the given state atom to the named client property. -/
def ewmh_process_wm_state (c : Client) (a : Nat) (action : Nat) : Client :=
  if action = 0 then
    { c with stateProps := c.stateProps.filter (fun b => b ≠ a) }
  else if action = 1 then
    { c with stateProps :=
        if a ∈ c.stateProps then c.stateProps else a :: c.stateProps }
  else if action = 2 then
    { c with stateProps :=
        if a ∈ c.stateProps then c.stateProps.filter (fun b => b ≠ a)
        else a :: c.stateProps }
  else c

/-- Modelled from the spec: index_to_workspace (workspace.c, not under
src/): the workspace identifier at the given index of the monitor. -/
def index_to_workspace (m : Monitor) (i : Nat) : Nat :=
  m.workspaces.getD i 0

/-- Replace the registry record of the window handle with an updated Client
record, mirroring mutation through the C client pointer. -/
def update_client (cs : List Client) (w : Nat) (c2 : Client) : List Client :=
  cs.map (fun c => if c.win == w then c2 else c)

/-- The floating window-type atoms of map_event (handler.c lines 100 to
105). -/
def floating_type_atoms : List Atom :=
  [Atom.NOTIFICATION, Atom.DROPDOWN_MENU, Atom.SPLASH,
   Atom.POPUP_MENU, Atom.TOOLTIP, Atom.DIALOG]

/-- The atom scan loop of map_event (handler.c lines 92 to 108): scanning in
server-returned order, DOCK or TOOLBAR aborts the scan (none, the dock
short-circuit); a floating type atom sets the floating flag and the scan
continues; the result (some fl) is the floating flag after the scan. -/
def scan_window_type : List Atom → Bool → Option Bool
  | [], fl => some fl
  | a :: rest, fl =>
    if a = Atom.DOCK ∨ a = Atom.TOOLBAR then none
    else if a ∈ floating_type_atoms then scan_window_type rest true
    else scan_window_type rest fl

/-- The window-type classification of map_event including the reply check of
handler.c line 89: a failed type query leaves the initial floating flag. -/
def map_scan (env : XEnv) (fl : Bool) : Option Bool :=
  match env.wtype with
  | some atoms => scan_window_type atoms fl
  | none => some fl

/-- The transient and geometry steps of map_event (handler.c lines 111 to
127), as mutations of the freshly created client: the transient-for reply
forces the floating flag, and for a floating client the geometry reply seeds
the rectangle (spawn defaults for degenerate dimensions, centred position
when configured, with truncating integer division). -/
def map_client (s : WMState) (w : Nat) (env : XEnv) (fl : Bool) : Client :=
  let c := create_client s.conf w
  let transient := env.transientFor.getD 0
  let isTrans := transient ≠ 0
  let fl2 := if isTrans then true else fl
  let c1 := { c with is_floating := fl2, is_transient := isTrans }
  match env.geom with
  | none => c1
  | some g =>
    if c1.is_floating then
      let wd := if g.width > 1 then g.width else s.conf.float_spawn_width
      let ht := if g.height > 1 then g.height else s.conf.float_spawn_height
      let px := if s.conf.center_floating then
          ((s.mon.rect.width / 2 : Nat) : Int) - ((wd / 2 : Nat) : Int)
        else g.x
      let py := if s.conf.center_floating then
          Int.tdiv ((s.mon.rect.height : Int) - (s.mon.ws.bar_height : Int) - (ht : Int)) 2
        else g.y
      { c1 with rect := { x := px, y := py, width := wd, height := ht } }
    else c1

/-- map_event (handler.c lines 68 to 133), the map-request handler. -/
def map_event (s : WMState) (w : Nat) (env : XEnv) : WMState × List Effect :=
  match env.attrs with
  | none => (s, [])
  | some wa =>
    if wa.override_redirect then (s, [])
    else if (find_client_by_win s w).isSome then (s, [])
    else
      let c := create_client s.conf w
      let s1 := { s with clients := s.clients ++ [c] }
      match map_scan env c.is_floating with
      | none =>
        ({ s1 with clients := remove_client_registry s1.clients w },
         [Effect.logInfo, Effect.mapWindow w, Effect.removeClient w false])
      | some fl =>
        let c2 := map_client s w env fl
        ({ s1 with clients := update_client s1.clients w c2, focused := some w },
         [Effect.logInfo, Effect.arrange, Effect.mapWindow w,
          Effect.focusClient w, Effect.grabButtons w])

/-- button_press_event (handler.c lines 43 to 56). -/
def button_press_event (s : WMState) (ev : GenericEvent) : WMState × List Effect :=
  (s, [Effect.logInfo]
    ++ (if s.conf.focus_mouse_click ∧ ev.detail = 1
        then [Effect.focusWindow ev.eventWin] else [])
    ++ (if s.conf.focus_mouse_click
        then [Effect.allowEvents, Effect.flush] else []))

/-- destroy_event (handler.c lines 144 to 154). -/
def destroy_event (s : WMState) (w : Nat) : WMState × List Effect :=
  match find_client_by_win s w with
  | none => (s, [])
  | some c =>
    ({ s with clients := remove_client_registry s.clients c.win },
     [Effect.logInfo, Effect.removeClient c.win true, Effect.arrange])

/-- enter_event (handler.c lines 161 to 175). -/
def enter_event (s : WMState) (ev : GenericEvent) : WMState × List Effect :=
  (s, [Effect.logDebug, Effect.focusMonitor ev.rootX ev.rootY]
    ++ (if s.conf.focus_mouse ∧ s.mon.ws.layout ≠ ZOOM
        then [Effect.focusWindow ev.eventWin] else []))

/-- configure_event (handler.c lines 182 to 207): builds the value list in
protocol field order, honouring only the bits set in the mask, with the bar
offset applied to y and the width and height clamped to the monitor
dimension minus the border width. -/
def configure_event (s : WMState) (w : Nat) (mask : Nat) (rx ry : Int)
    (rw rh bw sib stk : Nat) : WMState × List Effect :=
  let vals : List Int :=
    (if mask &&& 1 ≠ 0 then [rx] else [])
    ++ (if mask &&& 2 ≠ 0 then
          [ry + (if s.conf.bar_bottom then 0 else (s.mon.ws.bar_height : Int))]
        else [])
    ++ (if mask &&& 4 ≠ 0 then
          [if (rw : Int) < (s.mon.rect.width : Int) - (s.conf.border_px : Int)
           then (rw : Int)
           else (s.mon.rect.width : Int) - (s.conf.border_px : Int)]
        else [])
    ++ (if mask &&& 8 ≠ 0 then
          [if (rh : Int) < (s.mon.rect.height : Int) - (s.conf.border_px : Int)
           then (rh : Int)
           else (s.mon.rect.height : Int) - (s.conf.border_px : Int)]
        else [])
    ++ (if mask &&& 16 ≠ 0 then [(bw : Int)] else [])
    ++ (if mask &&& 32 ≠ 0 then [(sib : Int)] else [])
    ++ (if mask &&& 64 ≠ 0 then [(stk : Int)] else [])
  (s, [Effect.logInfo, Effect.configureWindow w mask vals, Effect.arrange])

/-- unmap_event (handler.c lines 214 to 228). -/
def unmap_event (s : WMState) (ew w : Nat) : WMState × List Effect :=
  match find_client_by_win s w with
  | none => (s, [])
  | some c =>
    if ew ≠ s.screen.root then
      ({ s with clients := remove_client_registry s.clients c.win },
       [Effect.logInfo, Effect.removeClient c.win true, Effect.arrange,
        Effect.howmInfo])
    else
      (s, [Effect.logInfo, Effect.howmInfo])

/-- client_message_event (handler.c lines 235 to 258). -/
def client_message_event (s : WMState) (w : Nat) (mtype : Atom)
    (d0 d1 d2 : Nat) : WMState × List Effect :=
  match find_client_by_win s w with
  | some c =>
    if mtype = Atom.NET_WM_STATE then
      let c1 := ewmh_process_wm_state c d1 d0
      let c2 := if d2 ≠ 0 then ewmh_process_wm_state c1 d2 d0 else c1
      ({ s with clients := update_client s.clients w c2 }, [])
    else if mtype = Atom.NET_CLOSE_WINDOW then
      ({ s with clients := remove_client_registry s.clients c.win },
       [Effect.logInfo, Effect.removeClient c.win true, Effect.arrange])
    else if mtype = Atom.NET_ACTIVE_WINDOW then
      ({ s with focused := some w }, [Effect.logInfo, Effect.focusClient w])
    else if mtype = Atom.NET_CURRENT_DESKTOP ∧ d0 < s.mon.workspace_cnt then
      ({ s with currentWs := index_to_workspace s.mon d0 }, [Effect.logInfo])
    else
      (s, [Effect.logDebug])
  | none => (s, [Effect.logDebug])

/-- unhandled_event (handler.c lines 260 to 266): logs and drops the
event. -/
def unhandled_event (s : WMState) (ev : GenericEvent) : WMState × List Effect :=
  (s, [Effect.logDebug])

/-- Event-kind constants of xproto.h used by the dispatch switch. -/
def XCB_BUTTON_PRESS : Nat := 4

def XCB_ENTER_NOTIFY : Nat := 7

def XCB_DESTROY_NOTIFY : Nat := 17

def XCB_UNMAP_NOTIFY : Nat := 18

def XCB_MAP_REQUEST : Nat := 20

def XCB_CONFIGURE_NOTIFY : Nat := 22

def XCB_CLIENT_MESSAGE : Nat := 33

/-- handle_event (handler.c lines 268 to 296): masks the synthetic-event
marker bit out of the response type and dispatches to exactly one handler;
every other kind goes to unhandled_event. -/
def handle_event (s : WMState) (ev : GenericEvent) : WMState × List Effect :=
  let rt := ev.responseType &&& 0x7f
  if rt = XCB_BUTTON_PRESS then button_press_event s ev
  else if rt = XCB_MAP_REQUEST then map_event s ev.window ev.env
  else if rt = XCB_DESTROY_NOTIFY then destroy_event s ev.window
  else if rt = XCB_ENTER_NOTIFY then enter_event s ev
  else if rt = XCB_CONFIGURE_NOTIFY then
    configure_event s ev.window ev.valueMask ev.x ev.y ev.width ev.height
      ev.borderWidth ev.sibling ev.stackMode
  else if rt = XCB_UNMAP_NOTIFY then unmap_event s ev.eventWin ev.window
  else if rt = XCB_CLIENT_MESSAGE then
    client_message_event s ev.window ev.msgType ev.data0 ev.data1 ev.data2
  else unhandled_event s ev

/-! ## Helper definitions and lemmas -/

/-- Number of registry records bound to the window handle. -/
def countWin (s : WMState) (w : Nat) : Nat :=
  s.clients.countP (fun c => c.win == w)

/-- The registry invariant that every transient client is floating. -/
def trans_implies_floating (cs : List Client) : Prop :=
  ∀ c ∈ cs, c.is_transient = true → c.is_floating = true

/-- An atom is classified by the scan of map_event when it belongs to the
dock group or the floating group. -/
def classified_atom (a : Atom) : Bool :=
  a = Atom.DOCK ∨ a = Atom.TOOLBAR ∨ a ∈ floating_type_atoms

/-- The seven event kinds the dispatcher routes to a named handler, in the
order of the switch of handle_event. -/
def known_event_kind (k : Nat) : Bool :=
  k = XCB_BUTTON_PRESS ∨ k = XCB_MAP_REQUEST ∨ k = XCB_DESTROY_NOTIFY
  ∨ k = XCB_ENTER_NOTIFY ∨ k = XCB_CONFIGURE_NOTIFY ∨ k = XCB_UNMAP_NOTIFY
  ∨ k = XCB_CLIENT_MESSAGE

/-- A sample configuration for concrete evaluations. -/
def conf0 : Config :=
  { focus_mouse := true, focus_mouse_click := true,
    float_spawn_width := 500, float_spawn_height := 300,
    center_floating := false, bar_bottom := false, border_px := 2 }

/-- A sample monitor with three workspaces. -/
def mon0 : Monitor :=
  { rect := { x := 0, y := 0, width := 1920, height := 1080 },
    ws := { bar_height := 20, layout := 1 },
    workspace_cnt := 3, workspaces := [10, 11, 12] }

/-- A sample state with an empty registry; the root window is 1. -/
def s0 : WMState :=
  { clients := [], conf := conf0, mon := mon0, screen := { root := 1 },
    focused := none, currentWs := 10 }

/-- A sample managed client bound to window 5. -/
def client5 : Client :=
  { win := 5, is_floating := false, is_transient := false,
    rect := { x := 0, y := 0, width := 100, height := 80 }, stateProps := [] }

/-- A sample state managing window 5. -/
def s5 : WMState := { s0 with clients := [client5] }

/-- Query replies where every query succeeds benignly. -/
def envOk : XEnv :=
  { attrs := some { override_redirect := false }, wtype := some [],
    transientFor := none,
    geom := some { x := 30, y := 40, width := 200, height := 150 } }

/-- Query replies for a window whose type list is DOCK only. -/
def envDock : XEnv := { envOk with wtype := some [Atom.DOCK] }

/-- Query replies declaring a transient-for target. -/
def envTrans : XEnv := { envOk with transientFor := some 9 }

/-- Query replies where every best-effort query fails. -/
def envFail : XEnv :=
  { attrs := some { override_redirect := false }, wtype := none,
    transientFor := none, geom := none }

/-- A base generic event aimed at window 5. -/
def ev0 : GenericEvent :=
  { responseType := 0, window := 5, eventWin := 5, detail := 1, time := 0,
    rootX := 0, rootY := 0, valueMask := 0, x := 0, y := 0, width := 0,
    height := 0, borderWidth := 0, sibling := 0, stackMode := 0,
    msgType := Atom.other 0, data0 := 0, data1 := 0, data2 := 0, env := envOk }

theorem find?_append_of_none (p : Client → Bool) (l1 l2 : List Client)
    (h : l1.find? p = none) : (l1 ++ l2).find? p = l2.find? p := by
  induction l1 with
  | nil => simp
  | cons a l ih =>
    rw [List.find?_cons] at h
    cases hpa : p a with
    | true => rw [hpa] at h; exact absurd h (by simp)
    | false =>
      rw [hpa] at h
      simp only [List.cons_append, List.find?_cons, hpa]
      exact ih h

theorem eraseP_append_new (p : Client → Bool) (l1 : List Client) (c : Client)
    (h : l1.find? p = none) (hc : p c = true) : (l1 ++ [c]).eraseP p = l1 := by
  rw [List.eraseP_append_right]
  · simp [List.eraseP_cons, hc]
  · intro b hb
    have := List.find?_eq_none.mp h b hb
    simp [this]

theorem update_client_append_new (l1 : List Client) (c c2 : Client) (w : Nat)
    (h : l1.find? (fun x => x.win == w) = none) (hc : c.win = w) :
    update_client (l1 ++ [c]) w c2 = l1 ++ [c2] := by
  unfold update_client
  rw [List.map_append]
  congr 1
  · have hid : ∀ x ∈ l1, (if (x.win == w) = true then c2 else x) = id x := by
      intro x hx
      have := List.find?_eq_none.mp h x hx
      simp at this
      simp [this]
    rw [List.map_congr_left hid, List.map_id]
  · simp [hc]

/-- Reduction of map_event under the step-1 guard when the type scan does
not hit the dock group. -/
theorem map_event_normal (s : WMState) (w : Nat) (env : XEnv) (wa : AttrReply)
    (fl : Bool)
    (h1 : env.attrs = some wa) (h2 : wa.override_redirect = false)
    (h3 : find_client_by_win s w = none) (h4 : map_scan env false = some fl) :
    map_event s w env =
      ({ s with clients := s.clients ++ [map_client s w env fl], focused := some w },
       [Effect.logInfo, Effect.arrange, Effect.mapWindow w,
        Effect.focusClient w, Effect.grabButtons w]) := by
  unfold map_event
  rw [h1]
  simp only [h2, Bool.false_eq_true, if_false, h3, Option.isSome_none]
  have hfl : (create_client s.conf w).is_floating = false := rfl
  rw [hfl, h4]
  have hfind : s.clients.find? (fun x => x.win == w) = none := h3
  show ({ s with
            clients := update_client (s.clients ++ [create_client s.conf w]) w
              (map_client s w env fl),
            focused := some w },
        [Effect.logInfo, Effect.arrange, Effect.mapWindow w,
         Effect.focusClient w, Effect.grabButtons w]) = _
  rw [update_client_append_new s.clients (create_client s.conf w)
        (map_client s w env fl) w hfind rfl]

/-- Reduction of map_event under the step-1 guard when the type scan hits
DOCK or TOOLBAR: the window is mapped directly, the freshly inserted client
is removed again (non-forced) and the handler returns. -/
theorem map_event_dock (s : WMState) (w : Nat) (env : XEnv) (wa : AttrReply)
    (atoms : List Atom)
    (h1 : env.attrs = some wa) (h2 : wa.override_redirect = false)
    (h3 : find_client_by_win s w = none)
    (h4 : env.wtype = some atoms) (h5 : scan_window_type atoms false = none) :
    map_event s w env =
      (s, [Effect.logInfo, Effect.mapWindow w, Effect.removeClient w false]) := by
  unfold map_event
  rw [h1]
  simp only [h2, Bool.false_eq_true, if_false, h3, Option.isSome_none]
  have hms : map_scan env (create_client s.conf w).is_floating = none := by
    unfold map_scan
    rw [h4]
    exact h5
  rw [hms]
  show ({ s with
            clients := remove_client_registry (s.clients ++ [create_client s.conf w]) w },
        [Effect.logInfo, Effect.mapWindow w, Effect.removeClient w false]) = _
  unfold remove_client_registry
  rw [eraseP_append_new _ s.clients (create_client s.conf w) h3 (by simp [create_client])]

/-- If the first atom of the list matched by the classification scan is DOCK
or TOOLBAR, the scan aborts with the dock short-circuit, whatever the
incoming floating flag. -/
theorem first_match_dock (atoms : List Atom) (a : Atom) (fl : Bool)
    (hfm : atoms.find? classified_atom = some a)
    (hd : a = Atom.DOCK ∨ a = Atom.TOOLBAR) :
    scan_window_type atoms fl = none := by
  induction atoms generalizing fl with
  | nil => simp at hfm
  | cons b rest ih =>
    cases hcb : classified_atom b with
    | true =>
      rw [List.find?_cons_of_pos _ hcb] at hfm
      simp only [Option.some.injEq] at hfm
      subst hfm
      unfold scan_window_type
      rw [if_pos hd]
    | false =>
      rw [List.find?_cons_of_neg _ (by simp [hcb])] at hfm
      unfold classified_atom at hcb
      simp only [decide_eq_false_iff_not, not_or] at hcb
      unfold scan_window_type
      rw [if_neg (by tauto), if_neg (by simpa using hcb.2.2)]
      exact ih fl hfm

theorem find_client_append (s : WMState) (w : Nat) (c2 : Client)
    (h3 : find_client_by_win s w = none) (hc : c2.win = w) :
    (s.clients ++ [c2]).find? (fun c => c.win == w) = some c2 := by
  rw [find?_append_of_none _ _ _ h3]
  simp [List.find?, hc]

/-! ## Claim theorems -/

/-- C1 counterexample: the claim states that the unmap handler removes the
Client with a non-forced removal (forced flag false).  At the concrete state
managing window 5, with an unmap notify whose reporting window 7 is not the
root window 1, the handler removes the client with the forced flag true, and
no non-forced removal occurs, so the claim as stated is false. -/
theorem unmap_event_not_nonforced_cx :
    Effect.removeClient 5 false ∉ (unmap_event s5 7 5).2
    ∧ Effect.removeClient 5 true ∈ (unmap_event s5 7 5).2
    ∧ (find_client_by_win s5 5).isSome = true
    ∧ (7 : Nat) ≠ s5.screen.root := by decide

/-- C1 (amended): for every unmap-notify event whose window resolves to a
managed Client and whose reporting window is not the root window, the unmap
handler removes that Client with a forced removal (the forced flag passed to
the registry remove operation is true) and then re-runs layout; if the
reporting window is the root window, no removal occurs. -/
theorem unmap_event_removes_client (s : WMState) (ew w : Nat) (c : Client)
    (hc : find_client_by_win s w = some c) :
    (ew ≠ s.screen.root →
       unmap_event s ew w =
         ({ s with clients := remove_client_registry s.clients w },
          [Effect.logInfo, Effect.removeClient w true, Effect.arrange,
           Effect.howmInfo]))
    ∧ (ew = s.screen.root →
       unmap_event s ew w = (s, [Effect.logInfo, Effect.howmInfo])) := by
  have hcw : c.win = w := by
    have := List.find?_some hc
    simpa using this
  constructor
  · intro h
    simp only [unmap_event, hc, hcw]
    rw [if_pos h]
  · intro h
    simp only [unmap_event, hc, hcw]
    rw [if_neg (fun hne => hne h)]

/-- C1 witness: the amended theorem applied at the concrete state managing
window 5 and an unmap notify reported by window 7. -/
theorem unmap_event_removes_client_witness :
    unmap_event s5 7 5 =
      ({ s5 with clients := remove_client_registry s5.clients 5 },
       [Effect.logInfo, Effect.removeClient 5 true, Effect.arrange,
        Effect.howmInfo]) :=
  (unmap_event_removes_client s5 7 5 client5 (by decide)).1 (by decide)

/-- C10: for every unmap-notify event whose window resolves to a managed
Client, a status refresh (howm_info) is the last effect of unmap handling,
whether or not removal occurred (in particular also when the reporting
window is the root window); when the window does not resolve to a managed
Client the handler is a no-op. -/
theorem unmap_event_emits_info (s : WMState) (ew w : Nat) :
    ((find_client_by_win s w).isSome = true →
       (unmap_event s ew w).2.getLast? = some Effect.howmInfo)
    ∧ (find_client_by_win s w = none → unmap_event s ew w = (s, [])) := by
  constructor
  · intro hs
    cases hfc : find_client_by_win s w with
    | none => rw [hfc] at hs; simp at hs
    | some c =>
      simp only [unmap_event, hfc]
      split
      · rfl
      · rfl
  · intro hn
    simp only [unmap_event, hn]

/-- C10 witness: at the concrete state managing window 5, an unmap notify
reported by the root window itself still ends with the status refresh. -/
theorem unmap_event_emits_info_witness :
    (unmap_event s5 1 5).2.getLast? = some Effect.howmInfo :=
  (unmap_event_emits_info s5 1 5).1 (by decide)

/-- C2: handle_event masks the synthetic-event marker bit out of the event
kind (handling the marked kind exactly as the unmarked one) and invokes
exactly one of the seven handlers according to the masked kind; every event
of an unknown kind leaves the state unchanged and produces only a diagnostic
log entry, surfacing no error. -/
theorem handle_event_dispatch (s : WMState) (ev : GenericEvent) :
    handle_event s ev =
      handle_event s { ev with responseType := ev.responseType &&& 0x7f }
    ∧ (known_event_kind (ev.responseType &&& 0x7f) = false →
        handle_event s ev = (s, [Effect.logDebug]))
    ∧ (ev.responseType &&& 0x7f = XCB_BUTTON_PRESS →
        handle_event s ev = button_press_event s ev)
    ∧ (ev.responseType &&& 0x7f = XCB_MAP_REQUEST →
        handle_event s ev = map_event s ev.window ev.env)
    ∧ (ev.responseType &&& 0x7f = XCB_DESTROY_NOTIFY →
        handle_event s ev = destroy_event s ev.window)
    ∧ (ev.responseType &&& 0x7f = XCB_ENTER_NOTIFY →
        handle_event s ev = enter_event s ev)
    ∧ (ev.responseType &&& 0x7f = XCB_CONFIGURE_NOTIFY →
        handle_event s ev = configure_event s ev.window ev.valueMask ev.x ev.y
          ev.width ev.height ev.borderWidth ev.sibling ev.stackMode)
    ∧ (ev.responseType &&& 0x7f = XCB_UNMAP_NOTIFY →
        handle_event s ev = unmap_event s ev.eventWin ev.window)
    ∧ (ev.responseType &&& 0x7f = XCB_CLIENT_MESSAGE →
        handle_event s ev = client_message_event s ev.window ev.msgType
          ev.data0 ev.data1 ev.data2) := by
  have hmm : (ev.responseType &&& 0x7f) &&& 0x7f = ev.responseType &&& 0x7f := by
    rw [Nat.and_assoc]
    norm_num
  refine ⟨?_, ?_, ?_, ?_, ?_, ?_, ?_, ?_, ?_⟩
  · simp only [handle_event]
    rw [hmm]
    repeat first | rfl | split
  · intro h
    unfold known_event_kind at h
    simp only [XCB_BUTTON_PRESS, XCB_MAP_REQUEST, XCB_DESTROY_NOTIFY,
      XCB_ENTER_NOTIFY, XCB_CONFIGURE_NOTIFY, XCB_UNMAP_NOTIFY,
      XCB_CLIENT_MESSAGE, decide_eq_false_iff_not, not_or] at h
    obtain ⟨h1, h2, h3, h4, h5, h6, h7⟩ := h
    simp only [handle_event, XCB_BUTTON_PRESS, XCB_MAP_REQUEST,
      XCB_DESTROY_NOTIFY, XCB_ENTER_NOTIFY, XCB_CONFIGURE_NOTIFY,
      XCB_UNMAP_NOTIFY, XCB_CLIENT_MESSAGE, unhandled_event]
    rw [if_neg h1, if_neg h2, if_neg h3, if_neg h4, if_neg h5, if_neg h6,
      if_neg h7]
  · intro h
    simp [handle_event, h]
  · intro h
    simp [handle_event, h, XCB_BUTTON_PRESS, XCB_MAP_REQUEST]
  · intro h
    simp [handle_event, h, XCB_BUTTON_PRESS, XCB_MAP_REQUEST,
      XCB_DESTROY_NOTIFY]
  · intro h
    simp [handle_event, h, XCB_BUTTON_PRESS, XCB_MAP_REQUEST,
      XCB_DESTROY_NOTIFY, XCB_ENTER_NOTIFY]
  · intro h
    simp [handle_event, h, XCB_BUTTON_PRESS, XCB_MAP_REQUEST,
      XCB_DESTROY_NOTIFY, XCB_ENTER_NOTIFY, XCB_CONFIGURE_NOTIFY]
  · intro h
    simp [handle_event, h, XCB_BUTTON_PRESS, XCB_MAP_REQUEST,
      XCB_DESTROY_NOTIFY, XCB_ENTER_NOTIFY, XCB_CONFIGURE_NOTIFY,
      XCB_UNMAP_NOTIFY]
  · intro h
    simp [handle_event, h, XCB_BUTTON_PRESS, XCB_MAP_REQUEST,
      XCB_DESTROY_NOTIFY, XCB_ENTER_NOTIFY, XCB_CONFIGURE_NOTIFY,
      XCB_UNMAP_NOTIFY, XCB_CLIENT_MESSAGE]

/-- C2 witness: an event of the unknown kind 99 is logged and dropped
without state mutation. -/
theorem handle_event_dispatch_witness :
    handle_event s0 { ev0 with responseType := 99 } = (s0, [Effect.logDebug]) :=
  (handle_event_dispatch s0 { ev0 with responseType := 99 }).2.1 (by decide)

/-- The C ternary min pattern equals min. -/
theorem ite_lt_eq_min (a b : Int) : (if a < b then a else b) = min a b := by
  rw [min_def]
  split <;> split <;> omega

/-- C6: the configure handler applies only the masked fields, in protocol
field order x, y, width, height, border-width, sibling, stack-mode; width
and height are clamped to min of the request and the monitor dimension minus
the border width, y is offset by the bar height unless the bar is at the
bottom, and x, border-width, sibling and stack-mode pass through; the
configuration is applied and layout re-run, with no state mutation. -/
theorem configure_event_applied (s : WMState) (w mask : Nat) (rx ry : Int)
    (rqw rqh bw sib stk : Nat) :
    configure_event s w mask rx ry rqw rqh bw sib stk =
      (s, [Effect.logInfo,
           Effect.configureWindow w mask (
             (if mask &&& 1 ≠ 0 then [rx] else [])
             ++ (if mask &&& 2 ≠ 0 then
                   [ry + (if s.conf.bar_bottom then 0
                          else (s.mon.ws.bar_height : Int))] else [])
             ++ (if mask &&& 4 ≠ 0 then
                   [min (rqw : Int)
                      ((s.mon.rect.width : Int) - (s.conf.border_px : Int))]
                 else [])
             ++ (if mask &&& 8 ≠ 0 then
                   [min (rqh : Int)
                      ((s.mon.rect.height : Int) - (s.conf.border_px : Int))]
                 else [])
             ++ (if mask &&& 16 ≠ 0 then [(bw : Int)] else [])
             ++ (if mask &&& 32 ≠ 0 then [(sib : Int)] else [])
             ++ (if mask &&& 64 ≠ 0 then [(stk : Int)] else [])),
           Effect.arrange]) := by
  simp only [configure_event, ite_lt_eq_min]

/-- C7: a CURRENT-DESKTOP client message with a requested index at or above
the workspace count of the active monitor produces no state change at all
(the bounds check precedes the workspace-list indexing, so the index is
never dereferenced); the current workspace changes only when the index is
strictly below the count and the named window resolves to a managed Client,
and in that case the monitor switches to the workspace at that index. -/
theorem client_message_desktop_bounds (s : WMState) (w d0 d1 d2 : Nat) :
    (s.mon.workspace_cnt ≤ d0 →
       client_message_event s w Atom.NET_CURRENT_DESKTOP d0 d1 d2 =
         (s, [Effect.logDebug]))
    ∧ ((client_message_event s w Atom.NET_CURRENT_DESKTOP d0 d1 d2).1.currentWs
         ≠ s.currentWs →
       d0 < s.mon.workspace_cnt ∧ (find_client_by_win s w).isSome = true)
    ∧ (d0 < s.mon.workspace_cnt → (find_client_by_win s w).isSome = true →
       client_message_event s w Atom.NET_CURRENT_DESKTOP d0 d1 d2 =
         ({ s with currentWs := index_to_workspace s.mon d0 },
          [Effect.logInfo])) := by
  cases hfc : find_client_by_win s w with
  | none =>
    refine ⟨?_, ?_, ?_⟩
    · intro _
      simp [client_message_event, hfc]
    · intro h
      simp [client_message_event, hfc] at h
    · intro _ hs
      simp at hs
  | some c =>
    refine ⟨?_, ?_, ?_⟩
    · intro h
      have hnlt : ¬ d0 < s.mon.workspace_cnt := by omega
      simp [client_message_event, hfc, hnlt]
    · intro h
      by_cases hlt : d0 < s.mon.workspace_cnt
      · exact ⟨hlt, rfl⟩
      · exfalso
        apply h
        simp [client_message_event, hfc, hlt]
    · intro hlt _
      simp [client_message_event, hfc, hlt]

/-- C7 witness: at the concrete state managing window 5 with three
workspaces, the out-of-range index 99 produces no state change, and the
in-range index 2 switches to workspace 12. -/
theorem client_message_desktop_bounds_witness :
    client_message_event s5 5 Atom.NET_CURRENT_DESKTOP 99 0 0 =
      (s5, [Effect.logDebug]) :=
  (client_message_desktop_bounds s5 5 99 0 0).1 (by decide)

/-- The no-op guard of map_event: a managed window is never re-registered. -/
theorem map_event_noop_managed (s : WMState) (w : Nat) (env : XEnv)
    (h : (find_client_by_win s w).isSome = true) :
    map_event s w env = (s, []) := by
  unfold map_event
  cases env.attrs with
  | none => rfl
  | some wa2 =>
    by_cases hov : wa2.override_redirect = true
    · simp [hov]
    · simp [hov, h]

/-- The client written back by map_event keeps the window handle. -/
theorem map_client_win (s : WMState) (w : Nat) (env : XEnv) (fl : Bool) :
    (map_client s w env fl).win = w := by
  unfold map_client
  cases env.geom with
  | none => rfl
  | some g =>
    dsimp only
    repeat first | rfl | split

/-- A fresh window has no registry record. -/
theorem countWin_eq_zero (s : WMState) (w : Nat)
    (h : find_client_by_win s w = none) : countWin s w = 0 := by
  unfold countWin
  rw [List.countP_eq_zero]
  intro c hc
  have := List.find?_eq_none.mp h c hc
  simpa using this

/-- Case analysis of map_event on a fresh window: either the state is
unchanged (guard failure or dock short-circuit) or exactly the written-back
client is appended and focused. -/
theorem map_event_cases (s : WMState) (w : Nat) (env : XEnv)
    (hfresh : find_client_by_win s w = none) :
    (map_event s w env).1 = s ∨
    ∃ fl, map_scan env false = some fl ∧
      (map_event s w env).1 =
        { s with clients := s.clients ++ [map_client s w env fl],
                 focused := some w } := by
  cases henv : env.attrs with
  | none =>
    left
    simp [map_event, henv]
  | some wa =>
    cases hov : wa.override_redirect with
    | true =>
      left
      simp [map_event, henv, hov]
    | false =>
      cases hms : map_scan env false with
      | none =>
        left
        cases hwt : env.wtype with
        | none =>
          exfalso
          unfold map_scan at hms
          rw [hwt] at hms
          simp at hms
        | some atoms =>
          have h5 : scan_window_type atoms false = none := by
            unfold map_scan at hms
            rw [hwt] at hms
            exact hms
          rw [map_event_dock s w env wa atoms henv hov hfresh hwt h5]
      | some fl =>
        right
        exact ⟨fl, rfl, by
          rw [map_event_normal s w env wa fl henv hov hfresh hms]⟩

/-- C3: mapping is idempotent.  A map request for an already-managed window
is a complete no-op (no client created, no state mutated, no effect); the
same guard applies when the attribute query fails or the window declares
override-redirect; and for a fresh window, two successive map requests for
the same handle leave at most one registry record bound to it. -/
theorem map_event_idempotent (s : WMState) (w : Nat) (env env1 env2 : XEnv)
    (wa : AttrReply) :
    ((find_client_by_win s w).isSome = true → map_event s w env = (s, []))
    ∧ (env.attrs = none → map_event s w env = (s, []))
    ∧ (env.attrs = some wa → wa.override_redirect = true →
        map_event s w env = (s, []))
    ∧ (find_client_by_win s w = none →
        countWin (map_event (map_event s w env1).1 w env2).1 w ≤ 1) := by
  refine ⟨map_event_noop_managed s w env, ?_, ?_, ?_⟩
  · intro h
    simp [map_event, h]
  · intro h hov
    simp [map_event, h, hov]
  · intro hfresh
    rcases map_event_cases s w env1 hfresh with h | ⟨fl, _, h⟩
    · rw [h]
      rcases map_event_cases s w env2 hfresh with h2 | ⟨fl2, _, h2⟩
      · rw [h2, countWin_eq_zero s w hfresh]
        omega
      · rw [h2]
        unfold countWin
        rw [List.countP_append]
        have h0 : s.clients.countP (fun c => c.win == w) = 0 :=
          countWin_eq_zero s w hfresh
        simp [h0, map_client_win]
    · rw [h]
      have hfind : find_client_by_win
          { s with clients := s.clients ++ [map_client s w env1 fl],
                   focused := some w } w = some (map_client s w env1 fl) :=
        find_client_append s w (map_client s w env1 fl) hfresh
          (map_client_win s w env1 fl)
      rw [map_event_noop_managed _ w env2 (by rw [hfind]; rfl)]
      unfold countWin
      rw [List.countP_append]
      have h0 : s.clients.countP (fun c => c.win == w) = 0 :=
        countWin_eq_zero s w hfresh
      simp [h0, map_client_win]

/-- C3 witness: at the empty state, two map requests for window 5 yield
exactly one registry record, and a map request for the already-managed
window 5 is a no-op. -/
theorem map_event_idempotent_witness :
    map_event s5 5 envOk = (s5, [])
    ∧ countWin (map_event (map_event s0 5 envOk).1 5 envOk).1 5 ≤ 1 :=
  ⟨(map_event_idempotent s5 5 envOk envOk envOk
      { override_redirect := false }).1 (by decide),
   (map_event_idempotent s0 5 envOk envOk envOk
      { override_redirect := false }).2.2.2 (by decide)⟩

/-- C5 counterexample: the claim quantifies over every map-request whose
type-atom list has DOCK or TOOLBAR as its first matching atom, but the
step-1 guard runs first: at the concrete state already managing window 5, a
map request for window 5 whose type list is exactly [DOCK] is a complete
no-op, so the window is not mapped at the protocol level and its Client is
still present in the Registry afterwards, contradicting the claim as
stated. -/
theorem map_event_dock_not_excluded_cx :
    (find_client_by_win (map_event s5 5 envDock).1 5).isSome = true
    ∧ Effect.mapWindow 5 ∉ (map_event s5 5 envDock).2
    ∧ [Atom.DOCK].find? classified_atom = some Atom.DOCK := by decide

/-- C5 (amended): for every map-request that passes the step-1 guard (the
attribute query succeeds, the window is not override-redirect and not
already managed) and whose window-type atom list has DOCK or TOOLBAR as the
first matching atom, the window is mapped directly at the protocol level,
its Client is removed from the Registry immediately (with the forced flag
false) and the handler returns, so no Client for that window is present in
the Registry after the map-request is processed. -/
theorem map_event_dock_exclusion (s : WMState) (w : Nat) (env : XEnv)
    (wa : AttrReply) (atoms : List Atom) (a : Atom)
    (h1 : env.attrs = some wa) (h2 : wa.override_redirect = false)
    (h3 : find_client_by_win s w = none)
    (h4 : env.wtype = some atoms)
    (hfm : atoms.find? classified_atom = some a)
    (hd : a = Atom.DOCK ∨ a = Atom.TOOLBAR) :
    map_event s w env =
      (s, [Effect.logInfo, Effect.mapWindow w, Effect.removeClient w false])
    ∧ find_client_by_win (map_event s w env).1 w = none := by
  have h5 := first_match_dock atoms a false hfm hd
  have hmain := map_event_dock s w env wa atoms h1 h2 h3 h4 h5
  exact ⟨hmain, by rw [hmain]; exact h3⟩

/-- C5 witness: at the empty state, a map request for window 5 with type
list [DOCK] maps the window directly, removes the fresh client non-forced,
and leaves no Client for the window in the Registry. -/
theorem map_event_dock_exclusion_witness :
    map_event s0 5 envDock =
      (s0, [Effect.logInfo, Effect.mapWindow 5, Effect.removeClient 5 false])
    ∧ find_client_by_win (map_event s0 5 envDock).1 5 = none :=
  map_event_dock_exclusion s0 5 envDock { override_redirect := false }
    [Atom.DOCK] Atom.DOCK rfl rfl rfl rfl (by decide) (Or.inl rfl)

/-- The EWMH state toggle touches only the state-property set, never the
floating or transient flags. -/
theorem ewmh_process_wm_state_flags (c : Client) (a act : Nat) :
    (ewmh_process_wm_state c a act).is_transient = c.is_transient
    ∧ (ewmh_process_wm_state c a act).is_floating = c.is_floating := by
  unfold ewmh_process_wm_state
  split_ifs <;> exact ⟨rfl, rfl⟩

/-- The flags of the client written back by map_event: the transient flag
records the transient-for reply, and the floating flag is forced by
transiency, independently of the geometry reply. -/
theorem map_client_flags (s : WMState) (w : Nat) (env : XEnv) (fl : Bool) :
    (map_client s w env fl).is_transient = decide (env.transientFor.getD 0 ≠ 0)
    ∧ (map_client s w env fl).is_floating =
        (if env.transientFor.getD 0 ≠ 0 then true else fl) := by
  unfold map_client
  cases env.geom with
  | none => exact ⟨rfl, rfl⟩
  | some g =>
    dsimp only
    repeat first | exact ⟨rfl, rfl⟩ | split

/-- The rectangle of the client written back by map_event when the geometry
query fails: the spawn-default rectangle of create_client. -/
theorem map_client_rect_none (s : WMState) (w : Nat) (env : XEnv) (fl : Bool)
    (hg : env.geom = none) :
    (map_client s w env fl).rect = (create_client s.conf w).rect := by
  unfold map_client
  rw [hg]

/-- The written-back client satisfies the transient-implies-floating rule. -/
theorem map_client_trans_floating (s : WMState) (w : Nat) (env : XEnv)
    (fl : Bool) :
    (map_client s w env fl).is_transient = true →
    (map_client s w env fl).is_floating = true := by
  intro h
  rw [(map_client_flags s w env fl).1] at h
  rw [(map_client_flags s w env fl).2]
  simp at h
  simp [h]

/-- Removal preserves the transient-implies-floating invariant. -/
theorem trans_inv_eraseP (cs : List Client) (p : Client → Bool)
    (hinv : trans_implies_floating cs) :
    trans_implies_floating (cs.eraseP p) := by
  intro c hc
  exact hinv c ((List.eraseP_sublist cs).mem hc)

/-- map_event preserves the transient-implies-floating invariant. -/
theorem trans_inv_map_event (s : WMState) (w : Nat) (env : XEnv)
    (hinv : trans_implies_floating s.clients) :
    trans_implies_floating (map_event s w env).1.clients := by
  by_cases hf : (find_client_by_win s w).isSome = true
  · rw [map_event_noop_managed s w env hf]
    exact hinv
  · have hfresh : find_client_by_win s w = none := by
      cases hx : find_client_by_win s w with
      | none => rfl
      | some c => rw [hx] at hf; simp at hf
    rcases map_event_cases s w env hfresh with h | ⟨fl, _, h⟩
    · rw [h]
      exact hinv
    · rw [h]
      intro c hc
      rcases List.mem_append.mp hc with hcl | hcr
      · exact hinv c hcl
      · rw [List.mem_singleton.mp hcr]
        exact map_client_trans_floating s w env fl

/-- Pointer write-back into the registry preserves the
transient-implies-floating invariant whenever the written record satisfies
it. -/
theorem trans_inv_update_client (cs : List Client) (w : Nat) (c2 : Client)
    (hinv : trans_implies_floating cs)
    (h : c2.is_transient = true → c2.is_floating = true) :
    trans_implies_floating (update_client cs w c2) := by
  intro x hx
  rcases List.mem_map.mp hx with ⟨y, hy, hxy⟩
  by_cases hw : (y.win == w) = true
  · rw [if_pos hw] at hxy
    subst hxy
    exact h
  · rw [if_neg hw] at hxy
    subst hxy
    exact hinv y hy

/-- The one-or-two EWMH state toggles of the STATE branch leave the floating
and transient flags unchanged. -/
theorem ewmh_twice_flags (c : Client) (d0 d1 d2 : Nat) :
    (if d2 ≠ 0 then
       ewmh_process_wm_state (ewmh_process_wm_state c d1 d0) d2 d0
     else ewmh_process_wm_state c d1 d0).is_transient = c.is_transient
    ∧ (if d2 ≠ 0 then
         ewmh_process_wm_state (ewmh_process_wm_state c d1 d0) d2 d0
       else ewmh_process_wm_state c d1 d0).is_floating = c.is_floating := by
  split
  · constructor
    · rw [(ewmh_process_wm_state_flags _ d2 d0).1,
        (ewmh_process_wm_state_flags c d1 d0).1]
    · rw [(ewmh_process_wm_state_flags _ d2 d0).2,
        (ewmh_process_wm_state_flags c d1 d0).2]
  · exact ewmh_process_wm_state_flags c d1 d0

/-- client_message_event preserves the transient-implies-floating
invariant. -/
theorem trans_inv_client_message (s : WMState) (w : Nat) (mt : Atom)
    (d0 d1 d2 : Nat) (hinv : trans_implies_floating s.clients) :
    trans_implies_floating (client_message_event s w mt d0 d1 d2).1.clients := by
  cases hfc : find_client_by_win s w with
  | none =>
    simp only [client_message_event, hfc]
    exact hinv
  | some c =>
    simp only [client_message_event, hfc]
    have hcmem : c ∈ s.clients := by
      have := List.mem_of_find?_eq_some hfc
      exact this
    by_cases h1 : mt = Atom.NET_WM_STATE
    · rw [if_pos h1]
      have hcomp := ewmh_twice_flags c d0 d1 d2
      refine trans_inv_update_client s.clients w _ hinv ?_
      intro ht
      rw [hcomp.1] at ht
      rw [hcomp.2]
      exact hinv c hcmem ht
    · rw [if_neg h1]
      by_cases h2 : mt = Atom.NET_CLOSE_WINDOW
      · rw [if_pos h2]
        exact trans_inv_eraseP s.clients _ hinv
      · rw [if_neg h2]
        by_cases h3 : mt = Atom.NET_ACTIVE_WINDOW
        · rw [if_pos h3]
          exact hinv
        · rw [if_neg h3]
          by_cases h4 : mt = Atom.NET_CURRENT_DESKTOP ∧ d0 < s.mon.workspace_cnt
          · rw [if_pos h4]
            exact hinv
          · rw [if_neg h4]
            exact hinv

/-- handle_event preserves the transient-implies-floating invariant,
whatever the delivered event. -/
theorem trans_inv_handle_event (s : WMState) (ev : GenericEvent)
    (hinv : trans_implies_floating s.clients) :
    trans_implies_floating (handle_event s ev).1.clients := by
  simp only [handle_event]
  split_ifs
  · exact hinv
  · exact trans_inv_map_event s ev.window ev.env hinv
  · cases hfc : find_client_by_win s ev.window with
    | none =>
      simp only [destroy_event, hfc]
      exact hinv
    | some c =>
      simp only [destroy_event, hfc]
      exact trans_inv_eraseP s.clients _ hinv
  · exact hinv
  · exact hinv
  · cases hfc : find_client_by_win s ev.window with
    | none =>
      simp only [unmap_event, hfc]
      exact hinv
    | some c =>
      simp only [unmap_event, hfc]
      split
      · exact trans_inv_eraseP s.clients _ hinv
      · exact hinv
  · exact trans_inv_client_message s ev.window ev.msgType ev.data0 ev.data1
      ev.data2 hinv
  · exact hinv

/-- C4: transient implies floating.  For every map-request that creates a
Client (step-1 guard passed, no dock short-circuit) whose window declares a
nonzero transient-for target, the resulting Client has both the transient
flag and the floating flag true at the end of map handling, whatever the
window-type atoms contributed to the scan result; and the registry invariant
that every live transient Client is floating is preserved by every delivered
event. -/
theorem map_event_transient_floating
    (s : WMState) (w : Nat) (env : XEnv) (wa : AttrReply) (fl : Bool)
    (ev : GenericEvent)
    (h1 : env.attrs = some wa) (h2 : wa.override_redirect = false)
    (h3 : find_client_by_win s w = none)
    (h4 : map_scan env false = some fl)
    (h5 : env.transientFor.getD 0 ≠ 0)
    (hinv : trans_implies_floating s.clients) :
    (∃ c, find_client_by_win (map_event s w env).1 w = some c
       ∧ c.is_transient = true ∧ c.is_floating = true)
    ∧ trans_implies_floating (handle_event s ev).1.clients := by
  constructor
  · refine ⟨map_client s w env fl, ?_, ?_, ?_⟩
    · rw [map_event_normal s w env wa fl h1 h2 h3 h4]
      exact find_client_append s w _ h3 (map_client_win s w env fl)
    · rw [(map_client_flags s w env fl).1]
      simp [h5]
    · rw [(map_client_flags s w env fl).2]
      simp [h5]
  · exact trans_inv_handle_event s ev hinv

/-- C4 witness: at the empty state, a map request for window 5 whose
transient-for reply names window 9 yields a transient, floating Client. -/
theorem map_event_transient_floating_witness :
    ∃ c, find_client_by_win (map_event s0 5 envTrans).1 5 = some c
       ∧ c.is_transient = true ∧ c.is_floating = true :=
  (map_event_transient_floating s0 5 envTrans { override_redirect := false }
    false ev0 rfl rfl rfl rfl (by decide)
    (by intro c hc; simp [s0] at hc)).1

/-- C8: floating spawn geometry arithmetic.  For every map-request that
creates a floating Client and whose geometry query returns a reply, the
Client width is the server width when greater than 1 and the configured
floating-spawn width otherwise (likewise for height); with centring
configured, the position is computed by truncating integer arithmetic as
x = monitor_width/2 - client_width/2 and
y = (monitor_height - bar_height - client_height)/2, and otherwise the
position is the server-reported one. -/
theorem map_event_floating_geometry
    (s : WMState) (w : Nat) (env : XEnv) (wa : AttrReply) (fl : Bool)
    (g : GeomReply)
    (h1 : env.attrs = some wa) (h2 : wa.override_redirect = false)
    (h3 : find_client_by_win s w = none)
    (h4 : map_scan env false = some fl)
    (h5 : env.geom = some g)
    (h6 : (if env.transientFor.getD 0 ≠ 0 then true else fl) = true) :
    ∃ c, find_client_by_win (map_event s w env).1 w = some c
      ∧ c.is_floating = true
      ∧ c.rect.width = (if g.width > 1 then g.width
                        else s.conf.float_spawn_width)
      ∧ c.rect.height = (if g.height > 1 then g.height
                         else s.conf.float_spawn_height)
      ∧ c.rect.x = (if s.conf.center_floating then
            ((s.mon.rect.width / 2 : Nat) : Int)
              - ((c.rect.width / 2 : Nat) : Int)
          else g.x)
      ∧ c.rect.y = (if s.conf.center_floating then
            Int.tdiv ((s.mon.rect.height : Int) - (s.mon.ws.bar_height : Int)
              - (c.rect.height : Int)) 2
          else g.y) := by
  refine ⟨map_client s w env fl, ?_, ?_, ?_, ?_, ?_, ?_⟩
  · rw [map_event_normal s w env wa fl h1 h2 h3 h4]
    exact find_client_append s w _ h3 (map_client_win s w env fl)
  · rw [(map_client_flags s w env fl).2]
    exact h6
  · unfold map_client
    rw [h5]
    dsimp only
    rw [if_pos h6]
  · unfold map_client
    rw [h5]
    dsimp only
    rw [if_pos h6]
  · unfold map_client
    rw [h5]
    dsimp only
    rw [if_pos h6]
  · unfold map_client
    rw [h5]
    dsimp only
    rw [if_pos h6]

/-- C8 witness: at the empty state with centring off, the transient map
request for window 5 with server geometry 200 by 150 at (30, 40) yields a
floating client with that geometry. -/
theorem map_event_floating_geometry_witness :
    ∃ c, find_client_by_win (map_event s0 5 envTrans).1 5 = some c
      ∧ c.is_floating = true
      ∧ c.rect.width = (if (200 : Nat) > 1 then 200
                        else s0.conf.float_spawn_width)
      ∧ c.rect.height = (if (150 : Nat) > 1 then 150
                         else s0.conf.float_spawn_height)
      ∧ c.rect.x = (if s0.conf.center_floating then
            ((s0.mon.rect.width / 2 : Nat) : Int)
              - ((c.rect.width / 2 : Nat) : Int)
          else (30 : Int))
      ∧ c.rect.y = (if s0.conf.center_floating then
            Int.tdiv ((s0.mon.rect.height : Int) - (s0.mon.ws.bar_height : Int)
              - (c.rect.height : Int)) 2
          else (40 : Int)) :=
  map_event_floating_geometry s0 5 envTrans { override_redirect := false }
    false { x := 30, y := 40, width := 200, height := 150 }
    rfl rfl rfl rfl rfl (by decide)

/-- C9: query-failure degradation.  Past the step-1 guard, failed window
type, transient-for or geometry queries never abort client creation: a
failed type query leaves the floating flag to the transient decision alone,
a failed transient query leaves the Client non-transient (floating exactly
per the type scan), a failed geometry query leaves the spawn-default
rectangle, and in every non-dock case the handler still re-runs layout, maps
the window, focuses the new Client and grabs its buttons. -/
theorem map_event_query_failure
    (s : WMState) (w : Nat) (env : XEnv) (wa : AttrReply)
    (h1 : env.attrs = some wa) (h2 : wa.override_redirect = false)
    (h3 : find_client_by_win s w = none) :
    (env.wtype = none → env.transientFor = none →
       ∃ c, find_client_by_win (map_event s w env).1 w = some c
          ∧ c.is_floating = false ∧ c.is_transient = false)
    ∧ (∀ fl, map_scan env false = some fl → env.transientFor = none →
       ∃ c, find_client_by_win (map_event s w env).1 w = some c
          ∧ c.is_transient = false ∧ c.is_floating = fl)
    ∧ (∀ fl, map_scan env false = some fl → env.geom = none →
       ∃ c, find_client_by_win (map_event s w env).1 w = some c
          ∧ c.rect = { x := 0, y := 0, width := s.conf.float_spawn_width,
                       height := s.conf.float_spawn_height })
    ∧ (∀ fl, map_scan env false = some fl →
       (map_event s w env).2 = [Effect.logInfo, Effect.arrange,
         Effect.mapWindow w, Effect.focusClient w, Effect.grabButtons w]) := by
  have hfind : ∀ fl, map_scan env false = some fl →
      find_client_by_win (map_event s w env).1 w =
        some (map_client s w env fl) := by
    intro fl h4
    rw [map_event_normal s w env wa fl h1 h2 h3 h4]
    exact find_client_append s w _ h3 (map_client_win s w env fl)
  refine ⟨?_, ?_, ?_, ?_⟩
  · intro hw ht
    have h4 : map_scan env false = some false := by
      unfold map_scan
      rw [hw]
    refine ⟨map_client s w env false, hfind false h4, ?_, ?_⟩
    · rw [(map_client_flags s w env false).2]
      simp [ht]
    · rw [(map_client_flags s w env false).1]
      simp [ht]
  · intro fl h4 ht
    refine ⟨map_client s w env fl, hfind fl h4, ?_, ?_⟩
    · rw [(map_client_flags s w env fl).1]
      simp [ht]
    · rw [(map_client_flags s w env fl).2]
      simp [ht]
  · intro fl h4 hg
    refine ⟨map_client s w env fl, hfind fl h4, ?_⟩
    rw [map_client_rect_none s w env fl hg]
    rfl
  · intro fl h4
    rw [map_event_normal s w env wa fl h1 h2 h3 h4]

/-- C9 witness: at the empty state, a map request for window 5 with every
best-effort query failing still creates a non-floating, non-transient
Client with the spawn-default rectangle and proceeds to layout, map, focus
and button-grab. -/
theorem map_event_query_failure_witness :
    (∃ c, find_client_by_win (map_event s0 5 envFail).1 5 = some c
       ∧ c.is_floating = false ∧ c.is_transient = false)
    ∧ (map_event s0 5 envFail).2 = [Effect.logInfo, Effect.arrange,
        Effect.mapWindow 5, Effect.focusClient 5, Effect.grabButtons 5] :=
  ⟨(map_event_query_failure s0 5 envFail { override_redirect := false }
      rfl rfl rfl).1 rfl rfl,
   (map_event_query_failure s0 5 envFail { override_redirect := false }
      rfl rfl rfl).2.2.2 false rfl⟩
